import Mathlib

/-!
Shallow embedding of the repository-ingestion cache-and-gate layer of the
answergit service.  The embedded code lives in two near-duplicate Python
files: lib/gitingest_service.py (the CLI-bridge variant, below "lib") and
gitingest-api/gitingest_service.py (the FastAPI variant, below "api").
The two variants share the existence check, the token size gate and the
cache functions, and differ only in the except-branch that classifies
exceptions raised during ingestion; that branch is therefore a parameter
(classify_lib / classify_api).  Errors are modelled by the message string
of the exception that escapes a function; time is modelled as a rational
number of seconds; the cache directory is a map from file paths to file
records; json.dump/json.load are modelled as the identity embedding of
in-memory JSON values, with a separate constructor for undecodable bytes.
-/

/-- Occurrence test for a character-list pattern inside a character list
(contiguous substring). -/
def listContainsSub (pat : List Char) : List Char → Bool
  | [] => pat.isEmpty
  | c :: t => pat.isPrefixOf (c :: t) || listContainsSub pat t

/-- Python membership test (pat in s); all patterns used by the code are
nonempty literals. -/
def strContains (s pat : String) : Bool :=
  listContainsSub pat.data s.data

/-- Remainder of the list after the first occurrence of the pattern (the
list itself is consumed entirely when the pattern never occurs). -/
def dropAfterFirst (pat : List Char) : List Char → List Char
  | [] => []
  | c :: t => if pat.isPrefixOf (c :: t) then (c :: t).drop pat.length else dropAfterFirst pat t

/-- Fuelled scan jumping past non-overlapping occurrences of the pattern
from the left; the fuel bounds the number of jumps. -/
def lastPieceFuel (pat : List Char) : ℕ → List Char → List Char
  | 0, s => s
  | fuel + 1, s =>
    if pat.isEmpty then s
    else if listContainsSub pat s then lastPieceFuel pat fuel (dropAfterFirst pat s)
    else s

/-- Python s.split(sep)[-1]: the text following the last non-overlapping
occurrence of sep, or s itself when sep does not occur. -/
def strAfterLast (s sep : String) : String :=
  ⟨lastPieceFuel sep.data (s.data.length + 1) s.data⟩

/-- Python s.strip(): remove leading and trailing whitespace. -/
def strTrim (s : String) : String :=
  ⟨((s.data.dropWhile Char.isWhitespace).reverse.dropWhile Char.isWhitespace).reverse⟩

/-- Python s.endswith(pat). -/
def strEndsWith (s pat : String) : Bool :=
  pat.data.reverse.isPrefixOf s.data.reverse

/-- Python s[0 : len s - 1]. -/
def strDropLast (s : String) : String :=
  ⟨s.data.dropLast⟩

/-- Python s.lower() (ASCII case folding, which covers every message the
code matches against). -/
def strLower (s : String) : String :=
  ⟨s.data.map Char.toLower⟩

/-- Value of a digits-only character list; none when the list is empty or
holds a non-digit. -/
def parseDigits (cs : List Char) : Option ℕ :=
  if cs.isEmpty then none
  else if cs.all Char.isDigit then
    some (cs.foldl (fun a c => a * 10 + (c.toNat - 48)) 0)
  else none

/-- Model of Python float(s) restricted to plain unsigned decimal literals
(digits with at most one decimal point), the shape the token-count value in
the summary takes.  The result is the exact value as a scaled integer:
some (m, e) stands for m / 10 ^ e; none when Python float would raise
ValueError. -/
def parseDecimalParts (s : String) : Option (ℕ × ℕ) :=
  let intPart := s.data.takeWhile (fun c => c != '.')
  let rest := s.data.dropWhile (fun c => c != '.')
  match rest with
  | [] => (parseDigits intPart).map (fun n => (n, 0))
  | _ :: frac =>
    if frac.any (fun c => c == '.') then none
    else if intPart.isEmpty && frac.isEmpty then none
    else
      match (if intPart.isEmpty then some 0 else parseDigits intPart),
            (if frac.isEmpty then some 0 else parseDigits frac) with
      | some i, some f => some (i * 10 ^ frac.length + f, frac.length)
      | _, _ => none

/-- JSON values: what json.dump writes and json.load returns. -/
inductive JsonVal : Type where
  | null : JsonVal
  | bool (b : Bool) : JsonVal
  | num (q : ℚ) : JsonVal
  | str (s : String) : JsonVal
  | arr (elems : List JsonVal) : JsonVal
  | obj (fields : List (String × JsonVal)) : JsonVal

/-- Python truthiness of a loaded JSON value (None, False, 0, empty string,
empty list and empty dict are falsy). -/
def JsonVal.truthy : JsonVal → Bool
  | .null => false
  | .bool b => b
  | .num q => !(q == 0)
  | .str s => !(s == "")
  | .arr elems => !elems.isEmpty
  | .obj fields => !fields.isEmpty

/-- json.load yields Python None for the JSON literal null; a caller typed
Optional cannot tell that apart from absence, so null collapses to none. -/
def jsonToOpt : JsonVal → Option JsonVal
  | .null => none
  | v => some v

/-- Contents of one cache file: either bytes json.load fails on, or a JSON
value. -/
inductive Stored : Type where
  | malformed : Stored
  | json (v : JsonVal) : Stored

/-- One cache file together with its modification time in seconds. -/
structure FileRecord : Type where
  mtime : ℚ
  data : Stored

/-- The cache directory: a map from file paths to files, none meaning no
such file exists. -/
abbrev Fs : Type := String → Option FileRecord

/-- CACHE_DIR constant (both variants compute the same fixed directory). -/
def CACHE_DIR : String := "cache"

/-- CACHE_EXPIRATION = 6 * 60 * 60 seconds (both variants). -/
def CACHE_EXPIRATION : ℚ := 6 * 60 * 60

/-- get_cache_path from both variants:
os.path.join(CACHE_DIR, username + "_" + repo + "_gitingest.json"). -/
def get_cache_path (username repo : String) : String :=
  CACHE_DIR ++ "/" ++ username ++ "_" ++ repo ++ "_gitingest.json"

/-- is_cache_valid from both variants: the file exists and its age is
strictly below CACHE_EXPIRATION. -/
def is_cache_valid (fs : Fs) (now : ℚ) (cache_path : String) : Bool :=
  match fs cache_path with
  | none => false
  | some f => decide (now - f.mtime < CACHE_EXPIRATION)

/-- save_to_cache from both variants: json.dump the dict (given as its
field list) to the key's path; the file's mtime becomes the current time. -/
def save_to_cache (fs : Fs) (now : ℚ) (username repo : String)
    (data : List (String × JsonVal)) : Fs :=
  fun p =>
    if p = get_cache_path username repo then
      some ⟨now, Stored.json (JsonVal.obj data)⟩
    else fs p

/-- load_from_cache from both variants: none when the file is missing or
expired; json.load errors are caught and become none; otherwise the loaded
value (JSON null collapsing to none via jsonToOpt). -/
def load_from_cache (fs : Fs) (now : ℚ) (username repo : String) : Option JsonVal :=
  let cache_path := get_cache_path username repo
  if is_cache_valid fs now cache_path then
    match fs cache_path with
    | some ⟨_, Stored.json v⟩ => jsonToOpt v
    | _ => none
  else none

/-- Upstream world for one call: the outcome of the existence-check GET
(ok status code, or error for a network-level failure) and the outcome of
ingest_async (the digest triple, or the raised exception's message). -/
structure Env : Type where
  httpStatus : Except Unit ℕ
  ingestResult : Except String (String × String × String)

/-- check_repo_exists from both variants: true only when the GET returned
status 200; any exception yields false. -/
def check_repo_exists (resp : Except Unit ℕ) : Bool :=
  match resp with
  | .ok status => status == 200
  | .error _ => false

/-- The token size gate both variants run on the summary inside the try
block: some msg is the message of the ValueError it raises, none means no
exception.  The token string is the trimmed text after the last occurrence
of the label; suffix M always raises error:repo_too_large, suffix K raises
it when float(value) > 750 (float raising ValueError when the value does
not parse); otherwise nothing is raised. -/
def token_gate_error (summary : String) : Option String :=
  if strContains summary "Estimated tokens: " then
    let tokens_str := strTrim (strAfterLast summary "Estimated tokens: ")
    if strEndsWith tokens_str "M" then some "error:repo_too_large"
    else if strEndsWith tokens_str "K" then
      match parseDecimalParts (strDropLast tokens_str) with
      | some (m, e) =>
        if 750 * 10 ^ e < m then some "error:repo_too_large" else none
      | none => some ("could not convert string to float: " ++ strDropLast tokens_str)
    else none
  else none

/-- The try block of ingest_repo (shared shape of both variants): either
the digest triple, or the message of the exception escaping the block
(from ingest_async or from the size gate). -/
def ingest_body (env : Env) : Except String (String × String × String) :=
  match env.ingestResult with
  | .error e => .error e
  | .ok (summary, tree, content) =>
    match token_gate_error summary with
    | some m => .error m
    | none => .ok (summary, tree, content)

/-- except branch of lib/gitingest_service.py ingest_repo: case-sensitive
substring matching; an unmatched exception is re-raised unchanged (bare
raise), so its message passes through. -/
def classify_lib (msg : String) : String :=
  if strContains msg "Repository not found" || strContains msg "Not Found" then
    "error:repo_not_found"
  else if strContains msg "Bad credentials" || strContains msg "API rate limit exceeded" then
    "error:repo_private"
  else msg

/-- except branch of gitingest-api/gitingest_service.py ingest_repo:
case-insensitive substring matching; an unmatched message is wrapped as a
processing_error. -/
def classify_api (msg : String) : String :=
  if strContains (strLower msg) "not found" then "error:repo_not_found"
  else if strContains (strLower msg) "bad credentials" || strContains (strLower msg) "rate limit" then
    "error:repo_private"
  else "processing_error: " ++ msg

/-- Invocation counts observed during one call: reads of the cache store,
calls to check_repo_exists, and calls to ingest_async. -/
structure Trace : Type where
  cacheReads : ℕ
  existCalls : ℕ
  ingestCalls : ℕ
deriving DecidableEq

/-- ingest_repo (both variants, the except branch passed as cls): raises
error:repo_not_found before ingestion when the existence check fails;
otherwise runs the try block and feeds any escaping exception message to
the except branch.  Also returns which collaborators were invoked. -/
def ingest_repo (cls : String → String) (env : Env) :
    Except String (String × String × String) × Trace :=
  if check_repo_exists env.httpStatus = false then
    (.error "error:repo_not_found", ⟨0, 1, 0⟩)
  else
    match ingest_body env with
    | .ok v => (.ok v, ⟨0, 1, 1⟩)
    | .error m => (.error (cls m), ⟨0, 1, 1⟩)

/-- Outcome of one get_repo_data call: the returned value or escaping
error message, the cache directory afterwards, and the invocation trace. -/
structure RunResult : Type where
  result : Except String JsonVal
  fsAfter : Fs
  trace : Trace

/-- Tail of get_repo_data after the cache check (both variants): build the
URL, ingest, assemble the repo_data dict with the current timestamp, save
it to the cache and return it; an ingestion error propagates and nothing
is saved. -/
def fetch_and_cache (cls : String → String) (fs : Fs) (now : ℚ)
    (username repo : String) (env : Env) : RunResult :=
  match ingest_repo cls env with
  | (.error e, t) => ⟨.error e, fs, t⟩
  | (.ok (summary, tree, content), t) =>
    let fields : List (String × JsonVal) :=
      [("summary", .str summary), ("tree", .str tree),
       ("content", .str content), ("timestamp", .num now)]
    ⟨.ok (.obj fields), save_to_cache fs now username repo fields, t⟩

/-- get_repo_data (both variants): unless force_refresh is set, read the
cache and return the loaded value when it is Python-truthy; otherwise fall
through to existence check, ingestion and write-through. -/
def get_repo_data (cls : String → String) (fs : Fs) (now : ℚ)
    (username repo : String) (force_refresh : Bool) (env : Env) : RunResult :=
  if force_refresh = false then
    match load_from_cache fs now username repo with
    | some cached =>
      if cached.truthy then ⟨.ok cached, fs, ⟨1, 0, 0⟩⟩
      else
        let out := fetch_and_cache cls fs now username repo env
        ⟨out.result, out.fsAfter, ⟨1, out.trace.existCalls, out.trace.ingestCalls⟩⟩
    | none =>
      let out := fetch_and_cache cls fs now username repo env
      ⟨out.result, out.fsAfter, ⟨1, out.trace.existCalls, out.trace.ingestCalls⟩⟩
  else fetch_and_cache cls fs now username repo env

/-- Condition under which the force_refresh = false path of get_repo_data
returns the cached value: the load yields a Python-truthy value. -/
def cache_hit (fs : Fs) (now : ℚ) (username repo : String) : Bool :=
  match load_from_cache fs now username repo with
  | some v => v.truthy
  | none => false

/-- Shape of the record get_repo_data writes: an object with string fields
summary, tree, content and a numeric timestamp. -/
def isEntry : JsonVal → Bool
  | .obj [("summary", .str _), ("tree", .str _), ("content", .str _), ("timestamp", .num _)] => true
  | _ => false

/-- The empty cache directory. -/
def fs_empty : Fs := fun _ => none

/-- A cache directory holding one fresh well-formed entry for (o, r). -/
def entry_val : JsonVal :=
  .obj [("summary", .str "S"), ("tree", .str "T"), ("content", .str "C"), ("timestamp", .num 0)]

/-- Cache directory with a fresh well-formed entry at key (o, r), written at
time 0. -/
def fs_entry : Fs :=
  fun p => if p = get_cache_path "o" "r" then some ⟨0, Stored.json entry_val⟩ else none

/-- Cache directory with a fresh but Python-falsy record (empty JSON
object) at key (o, r). -/
def fs_falsy : Fs :=
  fun p => if p = get_cache_path "o" "r" then some ⟨0, Stored.json (.obj [])⟩ else none

/-- Cache directory with a fresh file containing the JSON literal null at
key (o, r). -/
def fs_null_entry : Fs :=
  fun p => if p = get_cache_path "o" "r" then some ⟨0, Stored.json .null⟩ else none

/-- Upstream world in which the existence check returns 200 and ingestion
succeeds with a small digest. -/
def env_ok : Env := ⟨.ok 200, .ok ("S", "T", "C")⟩

/-- Upstream world in which the existence-check GET raises (network-level
failure); the ingestion oracle is irrelevant because it is never reached. -/
def env_down : Env := ⟨.error (), .error "unused"⟩

/-- A well-formed entry loads back as itself and is Python-truthy. -/
theorem isEntry_props {v : JsonVal} (h : isEntry v = true) :
    jsonToOpt v = some v ∧ v.truthy = true := by
  cases v with
  | obj fields =>
    cases fields with
    | nil => simp [isEntry] at h
    | cons f rest => exact ⟨rfl, rfl⟩
  | null => simp [isEntry] at h
  | bool b => simp [isEntry] at h
  | num q => simp [isEntry] at h
  | str s => simp [isEntry] at h
  | arr elems => simp [isEntry] at h

/-- The post-cache tail always checks existence once and ingests exactly
when the existence check succeeds. -/
theorem fetch_and_cache_trace (cls : String → String) (fs : Fs) (now : ℚ)
    (u r : String) (env : Env) :
    (fetch_and_cache cls fs now u r env).trace =
      ⟨0, 1, if check_repo_exists env.httpStatus then 1 else 0⟩ := by
  unfold fetch_and_cache ingest_repo
  cases hc : check_repo_exists env.httpStatus with
  | false => simp [hc]
  | true =>
    simp [hc]
    rcases hb : ingest_body env with e | ⟨⟨s, t, c⟩⟩ <;> simp [hb]

/-- C1: at the failing input (a summary reporting 2M estimated tokens) the
api adapter surfaces ValueError("processing_error: error:repo_too_large")
-- its blanket except re-wraps its own size-gate error, so the RepoTooLarge
code never reaches the caller -- while the lib adapter surfaces the
RepoTooLarge code error:repo_too_large as the claim states; the rejection
condition itself (M always, K only above 750) is as claimed in both
variants, as the 800K / 750K / 500K / unlabeled evaluations show. -/
theorem c1_size_gate_divergence :
    (ingest_repo classify_api ⟨.ok 200, .ok ("Estimated tokens: 2M", "tree", "content")⟩).1
      = .error "processing_error: error:repo_too_large"
  ∧ (ingest_repo classify_lib ⟨.ok 200, .ok ("Estimated tokens: 2M", "tree", "content")⟩).1
      = .error "error:repo_too_large"
  ∧ (ingest_repo classify_api ⟨.ok 200, .ok ("Estimated tokens: 800K", "tree", "content")⟩).1
      = .error "processing_error: error:repo_too_large"
  ∧ (ingest_repo classify_lib ⟨.ok 200, .ok ("Estimated tokens: 800K", "tree", "content")⟩).1
      = .error "error:repo_too_large"
  ∧ (ingest_repo classify_api ⟨.ok 200, .ok ("Estimated tokens: 750K", "tree", "content")⟩).1
      = .ok ("Estimated tokens: 750K", "tree", "content")
  ∧ (ingest_repo classify_lib ⟨.ok 200, .ok ("Estimated tokens: 750K", "tree", "content")⟩).1
      = .ok ("Estimated tokens: 750K", "tree", "content")
  ∧ (ingest_repo classify_api ⟨.ok 200, .ok ("Estimated tokens: 500K", "tree", "content")⟩).1
      = .ok ("Estimated tokens: 500K", "tree", "content")
  ∧ (ingest_repo classify_api ⟨.ok 200, .ok ("Estimated tokens: 1234", "tree", "content")⟩).1
      = .ok ("Estimated tokens: 1234", "tree", "content")
  ∧ (ingest_repo classify_api ⟨.ok 200, .ok ("a summary with no label", "tree", "content")⟩).1
      = .ok ("a summary with no label", "tree", "content")
  ∧ "processing_error: error:repo_too_large" ≠ "error:repo_too_large" :=
  ⟨rfl, rfl, rfl, rfl, rfl, rfl, rfl, rfl, rfl, by decide⟩

/-- C2 counterexample: the message "bad credentials" (lowercase) contains
"bad credentials" case-insensitively, yet the lib adapter does not produce
the access-denied code error:repo_private; its case-sensitive matcher
misses it and the bare raise lets the original exception escape. -/
theorem c2_counterexample :
    strContains (strLower "bad credentials") "bad credentials" = true
  ∧ (ingest_repo classify_lib ⟨.ok 200, .error "bad credentials"⟩).1 = .error "bad credentials"
  ∧ "bad credentials" ≠ "error:repo_private" :=
  ⟨rfl, rfl, by decide⟩

/-- C2 amended: the api adapter classifies any ingestion exception whose
lowercased message contains "bad credentials" or "rate limit" (and not the
higher-priority "not found") as error:repo_private; the lib adapter does so
only for messages containing the exact case-sensitive substrings
"Bad credentials" or "API rate limit exceeded" (and neither of its
case-sensitive not-found substrings). -/
theorem c2_access_denied_amended :
    (∀ (env : Env) (msg : String),
      check_repo_exists env.httpStatus = true →
      env.ingestResult = .error msg →
      strContains (strLower msg) "not found" = false →
      (strContains (strLower msg) "bad credentials" = true
        ∨ strContains (strLower msg) "rate limit" = true) →
      (ingest_repo classify_api env).1 = .error "error:repo_private")
  ∧ (∀ (env : Env) (msg : String),
      check_repo_exists env.httpStatus = true →
      env.ingestResult = .error msg →
      strContains msg "Repository not found" = false →
      strContains msg "Not Found" = false →
      (strContains msg "Bad credentials" = true
        ∨ strContains msg "API rate limit exceeded" = true) →
      (ingest_repo classify_lib env).1 = .error "error:repo_private") := by
  constructor
  · intro env msg hcheck hres h1 h2
    simp only [ingest_repo, hcheck, ingest_body, hres]
    simp only [Bool.true_eq_false, if_false]
    rcases h2 with h | h <;> simp [classify_api, h1, h]
  · intro env msg hcheck hres h1 h1b h2
    simp only [ingest_repo, hcheck, ingest_body, hres]
    simp only [Bool.true_eq_false, if_false]
    rcases h2 with h | h <;> simp [classify_lib, h1, h1b, h]

/-- C2 witness: a mixed-case rate-limit message is classified as
access-denied by the api adapter, and the exact GitHub spelling
"Bad credentials" is classified by the lib adapter. -/
theorem c2_access_denied_witness :
    (ingest_repo classify_api ⟨.ok 200, .error "GitHub RATE LIMIT reached"⟩).1
      = .error "error:repo_private"
  ∧ (ingest_repo classify_lib ⟨.ok 200, .error "401 Bad credentials"⟩).1
      = .error "error:repo_private" :=
  ⟨c2_access_denied_amended.1 ⟨.ok 200, .error "GitHub RATE LIMIT reached"⟩
      "GitHub RATE LIMIT reached" rfl rfl (by decide) (Or.inr (by decide)),
   c2_access_denied_amended.2 ⟨.ok 200, .error "401 Bad credentials"⟩
      "401 Bad credentials" rfl rfl (by decide) (by decide) (Or.inl (by decide))⟩

/-- C3: the existence check is false exactly on non-200 statuses and on
network-level failures, and whenever it is false and the call reaches it
(no truthy cache hit), get_repo_data fails with error:repo_not_found, the
checker having run once and ingest_async never (for either variant's
classifier and any upstream ingestion oracle). -/
theorem c3_not_found_short_circuit :
    (∀ s : ℕ, check_repo_exists (.ok s) = (s == 200))
  ∧ check_repo_exists (.error ()) = false
  ∧ ∀ (cls : String → String) (env : Env) (fs : Fs) (now : ℚ) (u r : String) (force : Bool),
      check_repo_exists env.httpStatus = false →
      (force = false → cache_hit fs now u r = false) →
      get_repo_data cls fs now u r force env =
        ⟨.error "error:repo_not_found", fs, ⟨if force then 0 else 1, 1, 0⟩⟩ := by
  refine ⟨fun s => rfl, rfl, ?_⟩
  intro cls env fs now u r force hcheck hmiss
  cases force with
  | true => simp [get_repo_data, fetch_and_cache, ingest_repo, hcheck]
  | false =>
    have hmiss' := hmiss rfl
    cases hload : load_from_cache fs now u r with
    | none => simp [get_repo_data, hload, fetch_and_cache, ingest_repo, hcheck]
    | some v =>
      have hv : v.truthy = false := by simpa [cache_hit, hload] using hmiss'
      simp [get_repo_data, hload, hv, fetch_and_cache, ingest_repo, hcheck]

/-- C3 witness: with an empty cache and a network-level existence-check
failure, get_repo_data returns error:repo_not_found having called the
checker once and the ingestion library zero times. -/
theorem c3_witness :
    get_repo_data classify_api fs_empty 0 "o" "r" false env_down =
      ⟨.error "error:repo_not_found", fs_empty, ⟨1, 1, 0⟩⟩ :=
  c3_not_found_short_circuit.2.2 classify_api env_down fs_empty 0 "o" "r" false rfl
    (fun _ => by decide)

/-- C4: with force_refresh false and a fresh well-formed entry under the
key, get_repo_data returns the cached payload with zero existence checks
and zero ingestions; with force_refresh true it performs no cache read,
checks existence once, and ingests whenever the check passes -- for either
variant and any upstream oracle, even when a valid entry exists. -/
theorem c4_cache_hit_and_force_refresh :
    (∀ (cls : String → String) (env : Env) (fs : Fs) (now t : ℚ) (u r : String) (v : JsonVal),
      fs (get_cache_path u r) = some ⟨t, Stored.json v⟩ →
      now - t < CACHE_EXPIRATION →
      isEntry v = true →
      get_repo_data cls fs now u r false env = ⟨.ok v, fs, ⟨1, 0, 0⟩⟩)
  ∧ (∀ (cls : String → String) (env : Env) (fs : Fs) (now : ℚ) (u r : String),
      (get_repo_data cls fs now u r true env).trace.cacheReads = 0
      ∧ (get_repo_data cls fs now u r true env).trace.existCalls = 1
      ∧ (check_repo_exists env.httpStatus = true →
          (get_repo_data cls fs now u r true env).trace.ingestCalls = 1)) := by
  constructor
  · intro cls env fs now t u r v hfs hfresh hentry
    obtain ⟨hopt, htruthy⟩ := isEntry_props hentry
    have hvalid : is_cache_valid fs now (get_cache_path u r) = true := by
      simp [is_cache_valid, hfs, hfresh]
    have hload : load_from_cache fs now u r = some v := by
      simp [load_from_cache, hvalid, hfs, hopt]
    simp [get_repo_data, hload, htruthy]
  · intro cls env fs now u r
    have htr : (get_repo_data cls fs now u r true env).trace =
        ⟨0, 1, if check_repo_exists env.httpStatus then 1 else 0⟩ := by
      simpa [get_repo_data] using fetch_and_cache_trace cls fs now u r env
    refine ⟨by rw [htr], by rw [htr], fun hc => by rw [htr, if_pos hc]⟩

/-- C4 witness: a concrete fresh entry is served from the cache untouched
with no existence check and no ingestion, and a force refresh on the same
cache performs no cache read and one existence check. -/
theorem c4_cache_hit_and_force_refresh_witness :
    get_repo_data classify_api fs_entry 1 "o" "r" false env_ok =
      ⟨.ok entry_val, fs_entry, ⟨1, 0, 0⟩⟩
  ∧ (get_repo_data classify_api fs_entry 1 "o" "r" true env_ok).trace.cacheReads = 0
  ∧ (get_repo_data classify_api fs_entry 1 "o" "r" true env_ok).trace.existCalls = 1 :=
  ⟨c4_cache_hit_and_force_refresh.1 classify_api env_ok fs_entry 1 0 "o" "r" entry_val rfl
      (by norm_num [CACHE_EXPIRATION]) rfl,
   (c4_cache_hit_and_force_refresh.2 classify_api env_ok fs_entry 1 "o" "r").1,
   (c4_cache_hit_and_force_refresh.2 classify_api env_ok fs_entry 1 "o" "r").2.1⟩

/-- A failing post-cache tail leaves the cache directory untouched. -/
theorem fetch_and_cache_error_frame (cls : String → String) (fs : Fs) (now : ℚ)
    (u r : String) (env : Env) (e : String)
    (h : (fetch_and_cache cls fs now u r env).result = .error e) :
    (fetch_and_cache cls fs now u r env).fsAfter = fs := by
  unfold fetch_and_cache at h ⊢
  rcases hi : ingest_repo cls env with ⟨res, tr⟩
  cases res with
  | error m => simp [hi]
  | ok v => rcases v with ⟨s, t, c⟩; simp [hi] at h

/-- With force_refresh set, get_repo_data is exactly the post-cache tail. -/
theorem get_repo_data_force (cls : String → String) (fs : Fs) (now : ℚ)
    (u r : String) (env : Env) :
    get_repo_data cls fs now u r true env = fetch_and_cache cls fs now u r env := rfl

/-- Without force_refresh and without a truthy cache hit, get_repo_data is
the post-cache tail with one cache read recorded. -/
theorem get_repo_data_miss (cls : String → String) (fs : Fs) (now : ℚ)
    (u r : String) (env : Env) (h : cache_hit fs now u r = false) :
    get_repo_data cls fs now u r false env =
      ⟨(fetch_and_cache cls fs now u r env).result,
       (fetch_and_cache cls fs now u r env).fsAfter,
       ⟨1, (fetch_and_cache cls fs now u r env).trace.existCalls,
          (fetch_and_cache cls fs now u r env).trace.ingestCalls⟩⟩ := by
  unfold get_repo_data
  cases hload : load_from_cache fs now u r with
  | none => simp [hload]
  | some v =>
    have hv : v.truthy = false := by simpa [cache_hit, hload] using h
    simp [hload, hv]

/-- C5: whenever get_repo_data fails (any error from either variant), the
cache directory is exactly what it was before the call, so any prior entry
loads exactly as before for every key and time. -/
theorem c5_no_write_on_failure :
    ∀ (cls : String → String) (env : Env) (fs : Fs) (now : ℚ) (u r : String)
      (force : Bool) (e : String),
      (get_repo_data cls fs now u r force env).result = .error e →
      (get_repo_data cls fs now u r force env).fsAfter = fs
      ∧ ∀ (t : ℚ) (u2 r2 : String),
          load_from_cache (get_repo_data cls fs now u r force env).fsAfter t u2 r2 =
            load_from_cache fs t u2 r2 := by
  intro cls env fs now u r force e herr
  have hfs : (get_repo_data cls fs now u r force env).fsAfter = fs := by
    cases force with
    | true =>
      rw [get_repo_data_force] at herr ⊢
      exact fetch_and_cache_error_frame cls fs now u r env e herr
    | false =>
      cases hhit : cache_hit fs now u r with
      | true =>
        rcases hv : load_from_cache fs now u r with _ | v
        · simp [cache_hit, hv] at hhit
        · have htr : v.truthy = true := by simpa [cache_hit, hv] using hhit
          have : (get_repo_data cls fs now u r false env).result = .ok v := by
            simp [get_repo_data, hv, htr]
          rw [this] at herr
          exact absurd herr (by simp)
      | false =>
        rw [get_repo_data_miss cls fs now u r env hhit] at herr ⊢
        exact fetch_and_cache_error_frame cls fs now u r env e herr
  exact ⟨hfs, fun t u2 r2 => by rw [hfs]⟩

/-- C5 witness: a failing run (existence check down) over a cache holding a
fresh entry leaves the directory untouched and the entry still loadable. -/
theorem c5_no_write_on_failure_witness :
    (get_repo_data classify_api fs_entry 1 "o" "r" true env_down).result =
      .error "error:repo_not_found"
  ∧ (get_repo_data classify_api fs_entry 1 "o" "r" true env_down).fsAfter = fs_entry
  ∧ load_from_cache (get_repo_data classify_api fs_entry 1 "o" "r" true env_down).fsAfter
      1 "o" "r" = load_from_cache fs_entry 1 "o" "r" :=
  ⟨rfl,
   (c5_no_write_on_failure classify_api env_down fs_entry 1 "o" "r" true
      "error:repo_not_found" rfl).1,
   (c5_no_write_on_failure classify_api env_down fs_entry 1 "o" "r" true
      "error:repo_not_found" rfl).2 1 "o" "r"⟩

/-- C6 counterexample: the distinct pairs ("a_b", "c") and ("a", "b_c")
share one record location, and a put for the first changes what get
returns for the second (from absent to the first pair's payload). -/
theorem c6_counterexample :
    (("a_b", "c") : String × String) ≠ ("a", "b_c")
  ∧ get_cache_path "a_b" "c" = get_cache_path "a" "b_c"
  ∧ load_from_cache fs_empty 1 "a" "b_c" = none
  ∧ load_from_cache (save_to_cache fs_empty 0 "a_b" "c" [("summary", .str "S")]) 1 "a" "b_c"
      = some (.obj [("summary", .str "S")]) := by
  refine ⟨by decide, rfl, rfl, ?_⟩
  have hpath : get_cache_path "a" "b_c" = get_cache_path "a_b" "c" := rfl
  simp [load_from_cache, save_to_cache, is_cache_valid, hpath, jsonToOpt]
  norm_num [CACHE_EXPIRATION]

/-- C6 amended: two keys share a record location exactly when the combined
strings owner ++ "_" ++ repo coincide (so distinctness of pairs alone is
not enough: an underscore ending the owner can be read as starting the
repo); whenever the combined strings differ, a put for one key leaves the
other key's get unchanged. -/
theorem c6_key_separation_amended :
    (∀ u1 r1 u2 r2 : String,
      get_cache_path u1 r1 = get_cache_path u2 r2 ↔ u1 ++ "_" ++ r1 = u2 ++ "_" ++ r2)
  ∧ (∀ (fs : Fs) (now t : ℚ) (u1 r1 u2 r2 : String) (data : List (String × JsonVal)),
      u1 ++ "_" ++ r1 ≠ u2 ++ "_" ++ r2 →
      load_from_cache (save_to_cache fs now u1 r1 data) t u2 r2 =
        load_from_cache fs t u2 r2) := by
  have key : ∀ u r : String,
      get_cache_path u r = ("cache/" : String) ++ (u ++ "_" ++ r) ++ "_gitingest.json" := by
    intro u r
    apply String.ext
    simp [get_cache_path, CACHE_DIR, String.data_append, List.append_assoc]
  have hiff : ∀ u1 r1 u2 r2 : String,
      get_cache_path u1 r1 = get_cache_path u2 r2 ↔ u1 ++ "_" ++ r1 = u2 ++ "_" ++ r2 := by
    intro u1 r1 u2 r2
    rw [key, key]
    constructor
    · intro h
      have h1 := congrArg String.data h
      simp only [String.data_append] at h1
      apply String.ext
      exact List.append_cancel_left (List.append_cancel_right h1)
    · intro h
      rw [h]
  refine ⟨hiff, ?_⟩
  intro fs now t u1 r1 u2 r2 data hne
  have hpath : get_cache_path u2 r2 ≠ get_cache_path u1 r1 :=
    fun hh => hne ((hiff u2 r2 u1 r1).mp hh).symm
  have hsave : save_to_cache fs now u1 r1 data (get_cache_path u2 r2) =
      fs (get_cache_path u2 r2) := by
    simp [save_to_cache, hpath]
  simp [load_from_cache, is_cache_valid, hsave]

/-- C6 witness: a put under ("x", "y") does not change what get returns
for the unrelated key ("o", "p"), and equal combined keys mean equal
record locations. -/
theorem c6_key_separation_witness :
    load_from_cache (save_to_cache fs_empty 0 "x" "y" [("summary", .str "S")]) 1 "o" "p" =
      load_from_cache fs_empty 1 "o" "p"
  ∧ get_cache_path "a" "b" = get_cache_path "a" "b" :=
  ⟨c6_key_separation_amended.2 fs_empty 0 1 "x" "y" "o" "p" [("summary", .str "S")]
      (by decide),
   (c6_key_separation_amended.1 "a" "b" "a" "b").mpr rfl⟩

/-- C7 counterexample: an ingestion exception with message "boom" matches
no classification rule; the lib adapter re-raises it unchanged, so the
failure escapes bearing its original message rather than any code of the
closed error vocabulary (in particular not the processing_error wrap). -/
theorem c7_counterexample :
    (ingest_repo classify_lib ⟨.ok 200, .error "boom"⟩).1 = .error "boom"
  ∧ "boom" ≠ "processing_error: boom"
  ∧ "boom" ≠ "error:repo_not_found"
  ∧ "boom" ≠ "error:repo_private"
  ∧ "boom" ≠ "error:repo_too_large" :=
  ⟨rfl, by decide, by decide, by decide, by decide⟩

/-- C7 amended: an ingestion exception matching neither the not-found nor
the access-denied rule is wrapped by the api adapter as
"processing_error: " followed by the original message, while the lib
adapter re-raises it unchanged (the escape is then caught only by the
CLI bridge's generic handler outside the core). -/
theorem c7_generic_failure_amended :
    (∀ (env : Env) (msg : String),
      check_repo_exists env.httpStatus = true →
      env.ingestResult = .error msg →
      strContains (strLower msg) "not found" = false →
      strContains (strLower msg) "bad credentials" = false →
      strContains (strLower msg) "rate limit" = false →
      (ingest_repo classify_api env).1 = .error ("processing_error: " ++ msg))
  ∧ (∀ (env : Env) (msg : String),
      check_repo_exists env.httpStatus = true →
      env.ingestResult = .error msg →
      strContains msg "Repository not found" = false →
      strContains msg "Not Found" = false →
      strContains msg "Bad credentials" = false →
      strContains msg "API rate limit exceeded" = false →
      (ingest_repo classify_lib env).1 = .error msg) := by
  constructor
  · intro env msg hcheck hres h1 h2 h3
    simp only [ingest_repo, hcheck, ingest_body, hres]
    simp only [Bool.true_eq_false, if_false]
    simp [classify_api, h1, h2, h3]
  · intro env msg hcheck hres h1 h1b h2 h2b
    simp only [ingest_repo, hcheck, ingest_body, hres]
    simp only [Bool.true_eq_false, if_false]
    simp [classify_lib, h1, h1b, h2, h2b]

/-- C7 witness: the unmatched message "disk quota exceeded" is wrapped by
the api adapter and re-raised bare by the lib adapter. -/
theorem c7_generic_failure_witness :
    (ingest_repo classify_api ⟨.ok 200, .error "disk quota exceeded"⟩).1
      = .error "processing_error: disk quota exceeded"
  ∧ (ingest_repo classify_lib ⟨.ok 200, .error "disk quota exceeded"⟩).1
      = .error "disk quota exceeded" :=
  ⟨c7_generic_failure_amended.1 ⟨.ok 200, .error "disk quota exceeded"⟩
      "disk quota exceeded" rfl rfl (by decide) (by decide) (by decide),
   c7_generic_failure_amended.2 ⟨.ok 200, .error "disk quota exceeded"⟩
      "disk quota exceeded" rfl rfl (by decide) (by decide) (by decide) (by decide)⟩

/-- C8 counterexample: a fresh, well-formed cache file containing the JSON
literal null makes get return absent although the file exists, is not
expired, and is not malformed (json.load turns null into Python None,
which the Optional-typed caller cannot tell from absence). -/
theorem c8_counterexample :
    load_from_cache fs_null_entry 1 "o" "r" = none
  ∧ fs_null_entry (get_cache_path "o" "r") = some ⟨0, Stored.json .null⟩
  ∧ (1 : ℚ) - 0 < CACHE_EXPIRATION
  ∧ Stored.json .null ≠ Stored.malformed := by
  refine ⟨?_, rfl, by norm_num [CACHE_EXPIRATION], by simp⟩
  cases h : is_cache_valid fs_null_entry 1 (get_cache_path "o" "r") <;>
    simp [load_from_cache, h, fs_null_entry, jsonToOpt]

/-- C8 amended: get returns absent exactly when no file exists under the
key, or the file's age is at least CACHE_EXPIRATION, or its bytes fail to
decode, or -- one case beyond the claim -- the stored JSON is the literal
null, whose deserialization is indistinguishable from absence; it never
raises. -/
theorem c8_absent_iff :
    ∀ (fs : Fs) (now : ℚ) (u r : String),
      load_from_cache fs now u r = none ↔
        fs (get_cache_path u r) = none
        ∨ (∃ t d, fs (get_cache_path u r) = some ⟨t, d⟩ ∧ CACHE_EXPIRATION ≤ now - t)
        ∨ (∃ t, fs (get_cache_path u r) = some ⟨t, Stored.malformed⟩)
        ∨ (∃ t, fs (get_cache_path u r) = some ⟨t, Stored.json .null⟩) := by
  intro fs now u r
  rcases hf : fs (get_cache_path u r) with _ | ⟨t, d⟩
  · simp [load_from_cache, is_cache_valid, hf]
  · by_cases hfresh : now - t < CACHE_EXPIRATION
    · have hvalid : is_cache_valid fs now (get_cache_path u r) = true := by
        simp [is_cache_valid, hf, hfresh]
      cases d with
      | malformed => simp [load_from_cache, hvalid, hf, hfresh.not_le]
      | json v =>
        cases v with
        | null => simp [load_from_cache, hvalid, hf, jsonToOpt, hfresh.not_le]
        | bool b => simp [load_from_cache, hvalid, hf, jsonToOpt, hfresh.not_le]
        | num q => simp [load_from_cache, hvalid, hf, jsonToOpt, hfresh.not_le]
        | str s => simp [load_from_cache, hvalid, hf, jsonToOpt, hfresh.not_le]
        | arr elems => simp [load_from_cache, hvalid, hf, jsonToOpt, hfresh.not_le]
        | obj fields => simp [load_from_cache, hvalid, hf, jsonToOpt, hfresh.not_le]
    · have hvalid : is_cache_valid fs now (get_cache_path u r) = false := by
        simp [is_cache_valid, hf, hfresh]
      simp [load_from_cache, hvalid, hf, not_lt.mp hfresh]

/-- C8 witness: the stored-null directory is classified absent through the
fourth case of the characterization. -/
theorem c8_absent_iff_witness :
    load_from_cache fs_null_entry 1 "o" "r" = none :=
  (c8_absent_iff fs_null_entry 1 "o" "r").mpr (Or.inr (Or.inr (Or.inr ⟨0, rfl⟩)))

/-- C9: a put followed by a get for the same key before the TTL elapses
returns exactly the stored payload, for any prior directory contents, any
key and any payload dict. -/
theorem c9_round_trip :
    ∀ (fs : Fs) (now t : ℚ) (u r : String) (data : List (String × JsonVal)),
      t - now < CACHE_EXPIRATION →
      load_from_cache (save_to_cache fs now u r data) t u r = some (.obj data) := by
  intro fs now t u r data h
  have hsave : save_to_cache fs now u r data (get_cache_path u r) =
      some ⟨now, Stored.json (.obj data)⟩ := by simp [save_to_cache]
  simp [load_from_cache, is_cache_valid, hsave, h, jsonToOpt]

/-- C9 witness: a concrete put at time 0 loads back unchanged at time 1. -/
theorem c9_round_trip_witness :
    (1 : ℚ) - 0 < CACHE_EXPIRATION
  ∧ load_from_cache (save_to_cache fs_empty 0 "o" "r" [("summary", .str "S")]) 1 "o" "r"
      = some (.obj [("summary", .str "S")]) :=
  ⟨by norm_num [CACHE_EXPIRATION],
   c9_round_trip fs_empty 0 1 "o" "r" [("summary", .str "S")] (by norm_num [CACHE_EXPIRATION])⟩

/-- C10: a fresh well-formed cache file whose loaded value is Python-falsy
(for example the empty JSON object) is not served as a hit: get_repo_data
with force_refresh false behaves as on a miss, checking existence once and
ingesting whenever the check passes. -/
theorem c10_falsy_cache_miss :
    ∀ (cls : String → String) (env : Env) (fs : Fs) (now t : ℚ) (u r : String) (v : JsonVal),
      fs (get_cache_path u r) = some ⟨t, Stored.json v⟩ →
      now - t < CACHE_EXPIRATION →
      v.truthy = false →
      get_repo_data cls fs now u r false env =
        ⟨(fetch_and_cache cls fs now u r env).result,
         (fetch_and_cache cls fs now u r env).fsAfter,
         ⟨1, (fetch_and_cache cls fs now u r env).trace.existCalls,
            (fetch_and_cache cls fs now u r env).trace.ingestCalls⟩⟩
      ∧ (fetch_and_cache cls fs now u r env).trace.existCalls = 1
      ∧ (check_repo_exists env.httpStatus = true →
          (fetch_and_cache cls fs now u r env).trace.ingestCalls = 1) := by
  intro cls env fs now t u r v hfs hfresh hfalsy
  have hvalid : is_cache_valid fs now (get_cache_path u r) = true := by
    simp [is_cache_valid, hfs, hfresh]
  have hopt : jsonToOpt v = none ∨ jsonToOpt v = some v := by
    cases v <;> simp [jsonToOpt]
  have hmiss : cache_hit fs now u r = false := by
    rcases hopt with h | h <;>
      simp [cache_hit, load_from_cache, hvalid, hfs, h, hfalsy]
  refine ⟨get_repo_data_miss cls fs now u r env hmiss, ?_, ?_⟩
  · rw [fetch_and_cache_trace]
  · intro hc
    rw [fetch_and_cache_trace, if_pos hc]

/-- C10 witness: a fresh empty-object record at the key does not stop the
full pipeline: the existence check and the ingestion both run once. -/
theorem c10_falsy_cache_miss_witness :
    (get_repo_data classify_api fs_falsy 1 "o" "r" false env_ok).trace.existCalls = 1
  ∧ (get_repo_data classify_api fs_falsy 1 "o" "r" false env_ok).trace.ingestCalls = 1 := by
  have h := c10_falsy_cache_miss classify_api env_ok fs_falsy 1 0 "o" "r" (.obj [])
    rfl (by norm_num [CACHE_EXPIRATION]) rfl
  constructor
  · rw [h.1]
    exact h.2.1
  · rw [h.1]
    exact h.2.2 rfl
